import Mathlib

/-!
# Shallow embedding of `bocco_mcp_server.py`

This file embeds the BOCCO emo MCP server (a single Python module) in Lean 4
and proves properties of the embedded functions.

Modelling conventions:
* Python `datetime` instants are modelled as `Int` seconds; `timedelta(minutes=5)`
  is `300`, `timedelta(seconds=n)` is `n`.  Each embedded call takes the current
  time `now` explicitly; within one call the clock is treated as constant.
* HTTP I/O is modelled by an `Env` oracle that fixes the remote responses, and
  every embedded operation returns, besides its value and the new client state,
  the list of HTTP requests it issued (its trace), in order.
* Python exceptions are modelled with `Except String`; the string is the
  exception message.  A `raise` inside an operation is an `Except.error`.
* Python truthiness on optional strings (`not self.access_token`,
  `if room_name:`, `room_id or self.default_room_id`) is modelled by
  `strTruthy`: `none` and `some ""` are falsy.
* Python `str.lower` is modelled by `strLower` (ASCII case folding; the
  non-ASCII characters appearing here, e.g. katakana, are caseless in both).
* Motion payload documents are opaque pass-through data per the code (sent
  verbatim, never inspected); they are modelled as an opaque wrapper type.
  Only the catalog's keys and the identity of the documents matter.
-/

/-- Python truthiness of an optional string: `None` and `""` are falsy. -/
def strTruthy : Option String → Bool
  | none => false
  | some s => !s.isEmpty

/-- A single-quote character, used when rendering Python list reprs. -/
def pySq : String := String.singleton (Char.ofNat 39)

/-- Rendering of a Python list of strings inside an f-string:
`[` quote `a` quote `, ` quote `b` quote `]`. -/
def pyStrListRepr (names : List String) : String :=
  "[" ++ String.intercalate ", " (names.map (fun n => pySq ++ n ++ pySq)) ++ "]"

/-- `listContainsAux needle hay`: Python `needle in hay` on character lists. -/
def listContainsAux (needle : List Char) : List Char → Bool
  | [] => needle.isEmpty
  | c :: t => needle.isPrefixOf (c :: t) || listContainsAux needle t

/-- Python substring test `needle in hay` on strings. -/
def strContains (hay needle : String) : Bool :=
  listContainsAux needle.data hay.data

/-- ASCII lowercasing of one character, as Python `str.lower` acts on the
characters occurring in this program (ASCII letters; katakana is caseless). -/
def lowerChar (c : Char) : Char :=
  if 65 ≤ c.toNat ∧ c.toNat ≤ 90 then Char.ofNat (c.toNat + 32) else c

/-- Python `str.lower`, modelled character-wise. -/
def strLower (s : String) : String := ⟨s.data.map lowerChar⟩

/-- A room as returned by `GET /v1/rooms`: the fields the code reads.
`name` models `room.get("name", "")` (a missing name is the empty string);
`uuid` models `room["uuid"]`. -/
structure Room where
  name : String
  uuid : String
deriving DecidableEq, Repr

/-- The mutable state of `BoccoEmoAPI`:
`access_token`, `token_expires_at`, `rooms`, `default_room_id`. -/
structure ApiState where
  accessToken : Option String
  tokenExpiresAt : Option Int
  rooms : List Room
  defaultRoomId : Option String
deriving DecidableEq, Repr

/-- The state set by `BoccoEmoAPI.__init__`. -/
def initState : ApiState :=
  { accessToken := none, tokenExpiresAt := none, rooms := [], defaultRoomId := none }

/-- An opaque motion payload document: the code passes these through to the
remote API verbatim and never inspects them, so only their identity is
modelled.  `tag` distinguishes the documents. -/
structure MotionDoc where
  tag : String
deriving DecidableEq, Repr

/-- The document stored under key `"head_shake"` in `PREDEFINED_MOTIONS`. -/
def headShakeDoc : MotionDoc := { tag := "head_shake_keyframes" }

/-- The document stored under key `"simple_nod"` in `PREDEFINED_MOTIONS`. -/
def simpleNodDoc : MotionDoc := { tag := "simple_nod_keyframes" }

/-- `PREDEFINED_MOTIONS`, as an insertion-ordered association list. -/
def PREDEFINED_MOTIONS : List (String × MotionDoc) :=
  [("head_shake", headShakeDoc), ("simple_nod", simpleNodDoc)]

/-- An HTTP request issued by the client, as recorded in a trace. -/
inductive HttpReq where
  /-- `POST /oauth/token/refresh` -/
  | tokenRefresh
  /-- `GET /v1/rooms` -/
  | getRooms
  /-- `POST /v1/rooms/\x7broomId\x7d/messages/text` with body `text`, `unique_id`. -/
  | postMessage (roomId : String) (text : String) (uniqueId : String)
  /-- `POST /v1/rooms/\x7broomId\x7d/motions` with the motion document as body. -/
  | postMotion (roomId : String) (doc : MotionDoc)
deriving DecidableEq, Repr

/-- Is this request a message post? -/
def HttpReq.isPostMessage : HttpReq → Bool
  | .postMessage .. => true
  | _ => false

/-- Is this request a motion post? -/
def HttpReq.isPostMotion : HttpReq → Bool
  | .postMotion .. => true
  | _ => false

/-- The decoded body of `GET /v1/rooms`: a wrapper object with a `rooms` key,
a direct list, or any other shape (which the code rejects). -/
inductive RoomsPayload where
  | wrapped (rooms : List Room)
  | plain (rooms : List Room)
  | other
deriving DecidableEq, Repr

/-- The oracle fixing the remote API's responses for one client session.
`tokenResp = some (tok, expiresIn)` models a 200 response whose body has an
`access_token` (with `expires_in` already defaulted to 3600 when absent);
`tokenResp = none` models any non-200 response, a 200 body without
`access_token`, or a transport exception.  `roomsResp = none` models a
non-200 response or a transport exception on the rooms listing.
`postStatus`/`postBody` are the status and decoded body of message and
motion posts. -/
structure Env where
  tokenResp : Option (String × Int)
  roomsResp : Option RoomsPayload
  postStatus : Nat
  postBody : String
deriving DecidableEq, Repr

/-- The outcome of one embedded operation: its value, the client state after
it, and the HTTP requests it issued, in order. -/
structure StepOut (α : Type) where
  val : α
  st : ApiState
  trace : List HttpReq
deriving DecidableEq, Repr

/-- `BoccoEmoAPI.get_access_token`: one `POST /oauth/token/refresh`.  On a 200
response carrying `access_token`, stores the token and sets
`token_expires_at = now + expires_in` and returns `True`; on any other
response or exception returns `False` with the state unchanged. -/
def get_access_token (now : Int) (env : Env) (st : ApiState) : StepOut Bool :=
  match env.tokenResp with
  | some (tok, expiresIn) =>
      { val := true
        st := { st with accessToken := some tok, tokenExpiresAt := some (now + expiresIn) }
        trace := [HttpReq.tokenRefresh] }
  | none => { val := false, st := st, trace := [HttpReq.tokenRefresh] }

/-- The refresh condition of `ensure_valid_token`:
`not self.access_token or not self.token_expires_at or
 datetime.now() > self.token_expires_at - timedelta(minutes=5)`. -/
def needsRefresh (st : ApiState) (now : Int) : Bool :=
  !strTruthy st.accessToken ||
    (match st.tokenExpiresAt with
     | none => true
     | some e => decide (now > e - 300))

/-- `BoccoEmoAPI.ensure_valid_token`: refreshes via `get_access_token` when the
token is absent, has no known expiry, or the current time is past
`expires_at - 5 minutes`; otherwise returns `True` without any request. -/
def ensure_valid_token (now : Int) (env : Env) (st : ApiState) : StepOut Bool :=
  if needsRefresh st now then get_access_token now env st
  else { val := true, st := st, trace := [] }

/-- The marker test in `fetch_rooms`:
`"エモ" in room_name or "emo" in room_name.lower()`. -/
def markerMatch (name : String) : Bool :=
  strContains name "エモ" || strContains (strLower name) "emo"

/-- The room-list extraction in `fetch_rooms`: accept `\x7b"rooms": [...]\x7d`
or a direct list, reject any other shape. -/
def extractRooms : RoomsPayload → Option (List Room)
  | .wrapped rs => some rs
  | .plain rs => some rs
  | .other => none

/-- The default-room selection in `fetch_rooms`, applied to a freshly stored
room list: the first room matching the marker wins; otherwise the first room;
an empty list leaves the previous default untouched. -/
def selectDefault (rooms : List Room) (old : Option String) : Option String :=
  match rooms with
  | [] => old
  | r0 :: _ =>
      match rooms.find? (fun r => markerMatch r.name) with
      | some r => some r.uuid
      | none => some r0.uuid

/-- `BoccoEmoAPI.fetch_rooms`: ensures a valid token, then one
`GET /v1/rooms`; on 200 stores the extracted room list and applies default
selection; returns `False` on token failure, non-200, or an unexpected
body shape. -/
def fetch_rooms (now : Int) (env : Env) (st : ApiState) : StepOut Bool :=
  let ev := ensure_valid_token now env st
  if !ev.val then { val := false, st := ev.st, trace := ev.trace }
  else
    match env.roomsResp with
    | none => { val := false, st := ev.st, trace := ev.trace ++ [HttpReq.getRooms] }
    | some payload =>
        match extractRooms payload with
        | none => { val := false, st := ev.st, trace := ev.trace ++ [HttpReq.getRooms] }
        | some rs =>
            { val := true
              st := { ev.st with
                        rooms := rs
                        defaultRoomId := selectDefault rs ev.st.defaultRoomId }
              trace := ev.trace ++ [HttpReq.getRooms] }

/-- Python `room_id or self.default_room_id` on optional strings. -/
def pyOrStr (a b : Option String) : Option String :=
  if strTruthy a then a else b

/-- The body returned by an operation: a decoded remote response body, or the
structured rooms snapshot built by `get_rooms_info`. -/
inductive RespData where
  | body (b : String)
  | roomsInfo (rooms : List Room) (defaultRoomId : Option String) (roomCount : Nat)
deriving DecidableEq, Repr

/-- The dictionary an operation returns.  `roomId = none` models the absence of
a `room_id` key in the Python dict; `roomId = some r` models
`"room_id": r`. -/
structure OpResult where
  status : Nat
  data : RespData
  roomId : Option String
deriving DecidableEq, Repr

/-- `BoccoEmoAPI.send_message`: ensure a valid token (raising on failure),
pick `room_id or default_room_id` (raising when neither is truthy), then one
message post, returning `\x7bstatus, data, room_id\x7d` whatever the status. -/
def send_message (now : Int) (env : Env) (st : ApiState) (text : String)
    (roomId : Option String) : StepOut (Except String OpResult) :=
  let ev := ensure_valid_token now env st
  if !ev.val then
    { val := Except.error "アクセストークンの取得に失敗しました", st := ev.st, trace := ev.trace }
  else
    match pyOrStr roomId ev.st.defaultRoomId with
    | none => { val := Except.error "送信先の部屋が指定されていません", st := ev.st, trace := ev.trace }
    | some target =>
        if target.isEmpty then
          { val := Except.error "送信先の部屋が指定されていません", st := ev.st, trace := ev.trace }
        else
          { val := Except.ok { status := env.postStatus, data := RespData.body env.postBody,
                               roomId := some target }
            st := ev.st
            trace := ev.trace ++ [HttpReq.postMessage target text (toString (now * 1000))] }

/-- `BoccoEmoAPI.send_motion`: same shape as `send_message`, posting the
motion document verbatim. -/
def send_motion (now : Int) (env : Env) (st : ApiState) (doc : MotionDoc)
    (roomId : Option String) : StepOut (Except String OpResult) :=
  let ev := ensure_valid_token now env st
  if !ev.val then
    { val := Except.error "アクセストークンの取得に失敗しました", st := ev.st, trace := ev.trace }
  else
    match pyOrStr roomId ev.st.defaultRoomId with
    | none => { val := Except.error "送信先の部屋が指定されていません", st := ev.st, trace := ev.trace }
    | some target =>
        if target.isEmpty then
          { val := Except.error "送信先の部屋が指定されていません", st := ev.st, trace := ev.trace }
        else
          { val := Except.ok { status := env.postStatus, data := RespData.body env.postBody,
                               roomId := some target }
            st := ev.st
            trace := ev.trace ++ [HttpReq.postMotion target doc] }

/-- `BoccoEmoAPI.get_rooms_info`: if the cached room list is empty, attempt a
fetch (ignoring its result); then return a fixed-status snapshot
`\x7b"status": 200, "data": \x7brooms, default_room_id, room_count\x7d\x7d`.
The returned dict has no `room_id` key. -/
def get_rooms_info (now : Int) (env : Env) (st : ApiState) : StepOut OpResult :=
  let stepped :=
    if st.rooms.isEmpty then
      let f := fetch_rooms now env st
      ({ val := (), st := f.st, trace := f.trace } : StepOut Unit)
    else { val := (), st := st, trace := [] }
  { val := { status := 200
             data := RespData.roomsInfo stepped.st.rooms stepped.st.defaultRoomId
                       stepped.st.rooms.length
             roomId := none }
    st := stepped.st
    trace := stepped.trace }

/-- `BoccoEmoAPI.initialize` (run by `__aenter__`): `get_access_token`, raising
on failure; then `fetch_rooms`, whose result is ignored. -/
def initSession (now : Int) (env : Env) : StepOut (Except String ApiState) :=
  let g := get_access_token now env initState
  if !g.val then
    { val := Except.error "アクセストークンの取得に失敗しました", st := g.st, trace := g.trace }
  else
    let f := fetch_rooms now env g.st
    { val := Except.ok f.st, st := f.st, trace := g.trace ++ f.trace }

/-- The inline room-name resolution loop in `call_tool`: the first room whose
lowered name contains the lowered query, by linear scan; `none` models the
`room_id` variable staying `None`. -/
def resolveRoom (rooms : List Room) (query : String) : Option String :=
  (rooms.find? (fun r => strContains (strLower r.name) (strLower query))).map Room.uuid

/-- The `used_room_name` computation in `call_tool`: the name of the room whose
uuid is the targeted `room_id`, else the default-room label. -/
def usedRoomName (rooms : List Room) (ridOpt : Option String) : String :=
  if strTruthy ridOpt then
    match rooms.find? (fun r => r.uuid == ridOpt.getD "") with
    | some r => r.name
    | none => "デフォルト部屋"
  else "デフォルト部屋"

/-- The message a Python `KeyError` on a missing required argument renders to
via `str(e)`: the key in single quotes. -/
def keyErrorText (k : String) : String := pySq ++ k ++ pySq

/-- The not-found error of the send-message branch: it names the room and
appends the Python list repr of all room names. -/
def msgRoomNotFoundText (roomName : String) (rooms : List Room) : String :=
  "エラー: 部屋「" ++ roomName ++ "」が見つかりません。利用可能な部屋: " ++
    pyStrListRepr (rooms.map Room.name)

/-- The not-found error of the motion branches: it only names the room. -/
def shortRoomNotFoundText (roomName : String) : String :=
  "エラー: 部屋「" ++ roomName ++ "」が見つかりません"

/-- The unknown-motion error: it names the motion and appends the Python list
repr of `list(PREDEFINED_MOTIONS.keys())`. -/
def unknownMotionText (motionName : String) : String :=
  "エラー: モーション " ++ pySq ++ motionName ++ pySq ++
    " が見つかりません。利用可能なモーション: " ++
    pyStrListRepr (PREDEFINED_MOTIONS.map Prod.fst)

/-- JSON rendering of a string (escaping not modelled; no input here needs it). -/
def jsonStr (s : String) : String := "\"" ++ s ++ "\""

/-- JSON rendering of an optional string; `None` renders as `null`. -/
def jsonOptStr : Option String → String
  | none => "null"
  | some s => jsonStr s

/-- JSON rendering of one room object. -/
def jsonRoom (r : Room) : String :=
  "\x7b" ++ jsonStr "name" ++ ": " ++ jsonStr r.name ++ ", " ++
    jsonStr "uuid" ++ ": " ++ jsonStr r.uuid ++ "\x7d"

/-- `json.dumps(result, ensure_ascii=False, indent=2)` on the snapshot
returned by `get_rooms_info`, with the indentation whitespace abstracted to a
single-line rendering (no theorem depends on this text). -/
def jsonDumpsRoomsInfo (r : OpResult) : String :=
  match r.data with
  | RespData.roomsInfo rooms dflt cnt =>
      "\x7b" ++ jsonStr "status" ++ ": " ++ toString r.status ++ ", " ++
        jsonStr "data" ++ ": \x7b" ++ jsonStr "rooms" ++ ": [" ++
        String.intercalate ", " (rooms.map jsonRoom) ++ "], " ++
        jsonStr "default_room_id" ++ ": " ++ jsonOptStr dflt ++ ", " ++
        jsonStr "room_count" ++ ": " ++ toString cnt ++ "\x7d\x7d"
  | RespData.body b => b

/-- The numbered room lines of the `bocco_list_rooms` rendering, starting the
enumeration at `i`; the default room is marked. -/
def roomLines (dflt : Option String) : Nat → List Room → String
  | _, [] => ""
  | i, r :: rest =>
      (if dflt = some r.uuid then "🏠 " else "   ") ++ toString i ++ ". " ++
        r.name ++ "\n   ID: " ++ r.uuid ++ "\n\n" ++ roomLines dflt (i + 1) rest

/-- Python `str` of an optional string, as an f-string renders it. -/
def pyShowOptStr : Option String → String
  | none => "None"
  | some s => s

/-- The full `bocco_list_rooms` rendering for a nonempty room list. -/
def listRoomsText (rooms : List Room) (dflt : Option String) (cnt : Nat) : String :=
  "📍 BOCCO emo 部屋一覧:\n\n" ++ roomLines dflt 1 rooms ++
    "合計: " ++ toString cnt ++ "部屋\n" ++
    "デフォルト部屋ID: " ++ pyShowOptStr dflt

/-- The `arguments` dict of a tool call: each field is `some v` when the key
is present.  `room_name` is read with `.get`, the others with `[]`. -/
structure ToolArgs where
  message : Option String := none
  roomName : Option String := none
  motionName : Option String := none
  motionJson : Option MotionDoc := none
deriving DecidableEq, Repr

/-- The body of `call_tool` inside its outer `try`: opens a fresh session
(`__aenter__` = `initSession`), dispatches on the tool name, and returns the
response text.  `Except.error` models a Python exception reaching the outer
`try` (where `callTool` catches it). -/
def callToolInner (now : Int) (env : Env) (name : String) (args : ToolArgs) :
    StepOut (Except String String) :=
  let s0 := initSession now env
  match s0.val with
  | Except.error e => { val := Except.error e, st := s0.st, trace := s0.trace }
  | Except.ok api =>
    if name = "bocco_send_message" then
      match args.message with
      | none => { val := Except.error (keyErrorText "message"), st := api, trace := s0.trace }
      | some message =>
        let goSend : Option String → StepOut (Except String String) := fun rid =>
          let s := send_message now env api message rid
          match s.val with
          | Except.error e => { val := Except.error e, st := s.st, trace := s0.trace ++ s.trace }
          | Except.ok res =>
              { val := Except.ok ("メッセージ「" ++ message ++ "」を" ++
                  usedRoomName s.st.rooms res.roomId ++ "に送信しました。\nステータス: " ++
                  toString res.status)
                st := s.st, trace := s0.trace ++ s.trace }
        if strTruthy args.roomName then
          match resolveRoom api.rooms (args.roomName.getD "") with
          | none =>
              { val := Except.ok (msgRoomNotFoundText (args.roomName.getD "") api.rooms)
                st := api, trace := s0.trace }
          | some rid => goSend (some rid)
        else goSend none
    else if name = "bocco_send_motion" then
      match args.motionName with
      | none => { val := Except.error (keyErrorText "motion_name"), st := api, trace := s0.trace }
      | some motionName =>
        match PREDEFINED_MOTIONS.lookup motionName with
        | none =>
            { val := Except.ok (unknownMotionText motionName), st := api, trace := s0.trace }
        | some doc =>
          let goSend : Option String → StepOut (Except String String) := fun rid =>
            let s := send_motion now env api doc rid
            match s.val with
            | Except.error e => { val := Except.error e, st := s.st, trace := s0.trace ++ s.trace }
            | Except.ok res =>
                { val := Except.ok ("モーション「" ++ motionName ++ "」を" ++
                    usedRoomName s.st.rooms res.roomId ++ "で実行しました。\nステータス: " ++
                    toString res.status)
                  st := s.st, trace := s0.trace ++ s.trace }
          if strTruthy args.roomName then
            match resolveRoom api.rooms (args.roomName.getD "") with
            | none =>
                { val := Except.ok (shortRoomNotFoundText (args.roomName.getD ""))
                  st := api, trace := s0.trace }
            | some rid => goSend (some rid)
          else goSend none
    else if name = "bocco_custom_motion" then
      match args.motionJson with
      | none => { val := Except.error (keyErrorText "motion_json"), st := api, trace := s0.trace }
      | some doc =>
        let goSend : Option String → StepOut (Except String String) := fun rid =>
          let s := send_motion now env api doc rid
          match s.val with
          | Except.error e => { val := Except.error e, st := s.st, trace := s0.trace ++ s.trace }
          | Except.ok res =>
              { val := Except.ok ("カスタムモーションを送信しました。\nステータス: " ++
                  toString res.status)
                st := s.st, trace := s0.trace ++ s.trace }
        if strTruthy args.roomName then
          match resolveRoom api.rooms (args.roomName.getD "") with
          | none =>
              { val := Except.ok (shortRoomNotFoundText (args.roomName.getD ""))
                st := api, trace := s0.trace }
          | some rid => goSend (some rid)
        else goSend none
    else if name = "bocco_get_rooms" then
      let g := get_rooms_info now env api
      { val := Except.ok ("部屋情報を取得しました。\n" ++ jsonDumpsRoomsInfo g.val)
        st := g.st, trace := s0.trace ++ g.trace }
    else if name = "bocco_list_rooms" then
      let g := get_rooms_info now env api
      let txt :=
        match g.val.data with
        | RespData.roomsInfo rooms dflt cnt =>
            if rooms.isEmpty then "部屋が見つかりませんでした。"
            else listRoomsText rooms dflt cnt
        | RespData.body _ => "部屋一覧の処理でエラーが発生しました: "
      { val := Except.ok txt, st := g.st, trace := s0.trace ++ g.trace }
    else
      { val := Except.ok ("エラー: 不明なツール " ++ pySq ++ name ++ pySq)
        st := api, trace := s0.trace }

/-- `call_tool` with its outer `try/except`: any exception from the session or
dispatch is caught and rendered as a generic error text, so the dispatcher
always returns a text and never aborts the process. -/
def callTool (now : Int) (env : Env) (name : String) (args : ToolArgs) :
    String × List HttpReq :=
  let c := callToolInner now env name args
  match c.val with
  | Except.ok t => (t, c.trace)
  | Except.error e => ("エラーが発生しました: " ++ e, c.trace)

/-! ## Concrete fixtures for witnesses and counterexamples -/

/-- A room named `Living`, not matching the default-room marker. -/
def livingRoom : Room := { name := "Living", uuid := "u1" }

/-- An environment where token refresh succeeds (3600-second expiry) and the
rooms listing returns `[livingRoom]`; posts answer 200. -/
def envLiving : Env :=
  { tokenResp := some ("tok", 3600)
    roomsResp := some (RoomsPayload.plain [livingRoom])
    postStatus := 200
    postBody := "ok" }

/-- An environment where both the token refresh and the rooms listing fail. -/
def envFail : Env :=
  { tokenResp := none, roomsResp := none, postStatus := 500, postBody := "ng" }

/-- A client state holding a token valid until time 1000, with no rooms. -/
def stFresh : ApiState :=
  { accessToken := some "tok", tokenExpiresAt := some 1000, rooms := [],
    defaultRoomId := none }

/-- The room named `エモちゃんの部屋` (matches the marker), uuid `A`. -/
def emoRoom : Room := { name := "エモちゃんの部屋", uuid := "A" }

/-- The room named `Office`, uuid `B`. -/
def officeRoom : Room := { name := "Office", uuid := "B" }

/-- An environment whose rooms listing yields `[officeRoom, emoRoom]`: the
marker room is second. -/
def envEmoSecond : Env :=
  { tokenResp := some ("tok", 3600)
    roomsResp := some (RoomsPayload.plain [officeRoom, emoRoom])
    postStatus := 200
    postBody := "ok" }

/-- An environment whose rooms listing yields an empty list. -/
def envNoRooms : Env :=
  { tokenResp := some ("tok", 3600)
    roomsResp := some (RoomsPayload.plain [])
    postStatus := 200
    postBody := "ok" }

/-- A client state as left by a successful session start against `envLiving`. -/
def stLiving : ApiState :=
  { accessToken := some "tok", tokenExpiresAt := some 3600,
    rooms := [livingRoom], defaultRoomId := some "u1" }

/-! ## Helper lemmas -/

theorem get_access_token_trace (now : Int) (env : Env) (st : ApiState) :
    (get_access_token now env st).trace = [HttpReq.tokenRefresh] := by
  unfold get_access_token
  rcases env.tokenResp with _ | ⟨tok, e⟩ <;> rfl

theorem get_access_token_preserves (now : Int) (env : Env) (st : ApiState) :
    (get_access_token now env st).st.rooms = st.rooms ∧
    (get_access_token now env st).st.defaultRoomId = st.defaultRoomId := by
  unfold get_access_token
  rcases env.tokenResp with _ | ⟨tok, e⟩ <;> exact ⟨rfl, rfl⟩

theorem ensure_valid_token_preserves (now : Int) (env : Env) (st : ApiState) :
    (ensure_valid_token now env st).st.rooms = st.rooms ∧
    (ensure_valid_token now env st).st.defaultRoomId = st.defaultRoomId := by
  unfold ensure_valid_token
  by_cases h : needsRefresh st now = true
  · simp only [h, if_true]
    exact get_access_token_preserves now env st
  · simp only [Bool.not_eq_true] at h
    simp only [h, Bool.false_eq_true, if_false]
    exact ⟨trivial, trivial⟩

theorem ensure_valid_token_trace (now : Int) (env : Env) (st : ApiState) :
    (ensure_valid_token now env st).trace = [] ∨
    (ensure_valid_token now env st).trace = [HttpReq.tokenRefresh] := by
  unfold ensure_valid_token
  by_cases h : needsRefresh st now = true
  · simp only [h, if_true]
    exact Or.inr (get_access_token_trace now env st)
  · simp only [Bool.not_eq_true] at h
    simp only [h, Bool.false_eq_true, if_false]
    exact Or.inl trivial

theorem needsRefresh_mono (st : ApiState) (now fut : Int) (hle : now ≤ fut)
    (h : needsRefresh st now = true) : needsRefresh st fut = true := by
  unfold needsRefresh at h ⊢
  rcases Bool.or_eq_true_iff.mp h with h1 | h2
  · exact Bool.or_eq_true_iff.mpr (Or.inl h1)
  · refine Bool.or_eq_true_iff.mpr (Or.inr ?_)
    rcases he : st.tokenExpiresAt with _ | e
    · rfl
    · rw [he] at h2
      simp only [decide_eq_true_eq] at h2 ⊢
      omega

theorem find?_first {α : Type} (p : α → Bool) (r : α) (hr : p r = true) :
    ∀ (l t : List α), (∀ x ∈ l, p x = false) → (l ++ r :: t).find? p = some r := by
  intro l
  induction l with
  | nil => intro t _; simp [List.find?, hr]
  | cons a l ih =>
      intro t hl
      have ha : p a = false := hl a (List.mem_cons_self a l)
      simp only [List.cons_append, List.find?, ha]
      exact ih t (fun x hx => hl x (List.mem_cons_of_mem a hx))

theorem find?_eq_some_split {α : Type} (p : α → Bool) :
    ∀ {l : List α} {r : α}, l.find? p = some r →
      ∃ l1 l2, l = l1 ++ r :: l2 ∧ p r = true ∧ ∀ x ∈ l1, p x = false := by
  intro l
  induction l with
  | nil => intro r h; simp [List.find?] at h
  | cons a t ih =>
      intro r h
      by_cases ha : p a = true
      · simp only [List.find?, ha] at h
        injection h with h
        subst h
        exact ⟨[], t, rfl, ha, fun x hx => by cases hx⟩
      · have ha' : p a = false := Bool.eq_false_iff.mpr ha
        simp only [List.find?, ha'] at h
        obtain ⟨l1, l2, hsplit, hpr, hl1⟩ := ih h
        refine ⟨a :: l1, l2, by rw [hsplit]; rfl, hpr, ?_⟩
        intro x hx
        rcases List.mem_cons.mp hx with rfl | hx'
        · exact ha'
        · exact hl1 x hx'

theorem find?_eq_none_of_all {α : Type} (p : α → Bool) :
    ∀ (l : List α), (∀ x ∈ l, p x = false) → l.find? p = none := by
  intro l
  induction l with
  | nil => intro _; rfl
  | cons a t ih =>
      intro h
      have ha : p a = false := h a (List.mem_cons_self a t)
      simp only [List.find?, ha]
      exact ih (fun x hx => h x (List.mem_cons_of_mem a hx))

theorem all_of_find?_eq_none {α : Type} (p : α → Bool) :
    ∀ (l : List α), l.find? p = none → ∀ x ∈ l, p x = false := by
  intro l
  induction l with
  | nil => intro _ x hx; cases hx
  | cons a t ih =>
      intro h x hx
      by_cases ha : p a = true
      · simp [List.find?, ha] at h
      · have ha' : p a = false := Bool.eq_false_iff.mpr ha
        simp only [List.find?, ha'] at h
        rcases List.mem_cons.mp hx with rfl | hx'
        · exact ha'
        · exact ih h x hx'

theorem fetch_rooms_success_eq (now : Int) (env : Env) (st : ApiState)
    (htok : (ensure_valid_token now env st).val = true)
    (payload : RoomsPayload) (rs : List Room)
    (hresp : env.roomsResp = some payload) (hex : extractRooms payload = some rs) :
    fetch_rooms now env st =
      { val := true
        st := { (ensure_valid_token now env st).st with
                  rooms := rs
                  defaultRoomId := selectDefault rs
                    (ensure_valid_token now env st).st.defaultRoomId }
        trace := (ensure_valid_token now env st).trace ++ [HttpReq.getRooms] } := by
  unfold fetch_rooms
  simp only [htok, Bool.not_true, Bool.false_eq_true, if_false, hresp, hex]

theorem fetch_rooms_fail_preserves (now : Int) (env : Env) (st : ApiState)
    (h : (fetch_rooms now env st).val = false) :
    (fetch_rooms now env st).st.rooms = st.rooms ∧
    (fetch_rooms now env st).st.defaultRoomId = st.defaultRoomId := by
  unfold fetch_rooms at h ⊢
  by_cases hval : (ensure_valid_token now env st).val = true
  · simp only [hval, Bool.not_true, Bool.false_eq_true, if_false] at h ⊢
    rcases hresp : env.roomsResp with _ | payload
    · simp only [hresp]
      exact ensure_valid_token_preserves now env st
    · simp only [hresp] at h ⊢
      rcases hex : extractRooms payload with _ | rs
      · simp only [hex]
        exact ensure_valid_token_preserves now env st
      · simp only [hex] at h
        exact absurd h (by decide)
  · have hval' : (ensure_valid_token now env st).val = false :=
      Bool.eq_false_iff.mpr hval
    simp only [hval', Bool.not_false, if_true]
    exact ensure_valid_token_preserves now env st

/-! ## Claim theorems -/

/-- C1: `ensure_valid_token` issues exactly one token-refresh request (its
trace is exactly `[tokenRefresh]`) when the access token is falsy, no expiry
is stored, or the current time is within the 5-minute margin of the stored
expiry (`expiry - now < 300`); when the stored token is valid beyond that
margin it issues no request (empty trace) and returns success. -/
theorem ensure_valid_token_refresh_count (now : Int) (env : Env) (st : ApiState) :
    ((strTruthy st.accessToken = false ∨ st.tokenExpiresAt = none ∨
        (∃ e, st.tokenExpiresAt = some e ∧ e - 300 < now)) →
      (ensure_valid_token now env st).trace = [HttpReq.tokenRefresh]) ∧
    (∀ e : Int, st.tokenExpiresAt = some e → strTruthy st.accessToken = true →
      now ≤ e - 300 →
      (ensure_valid_token now env st).trace = [] ∧
      (ensure_valid_token now env st).val = true) := by
  constructor
  · intro h
    have hn : needsRefresh st now = true := by
      unfold needsRefresh
      rcases h with h | h | ⟨e, he, hlt⟩
      · rw [h]; rfl
      · rw [h]; simp
      · simp only [he]
        have hd : decide (now > e - 300) = true := decide_eq_true hlt
        rw [hd]; simp
    unfold ensure_valid_token
    rw [hn]
    simpa using get_access_token_trace now env st
  · intro e he ht hle
    have hn : needsRefresh st now = false := by
      unfold needsRefresh
      simp only [he, ht]
      have hd : decide (now > e - 300) = false := decide_eq_false (by omega)
      rw [hd]; rfl
    unfold ensure_valid_token
    rw [hn]
    exact ⟨rfl, rfl⟩

/-- Witness for C1: with no stored token one refresh request is issued; with a
token valid until 1000 at time 0, none is issued and the check succeeds. -/
theorem ensure_valid_token_refresh_count_witness :
    (ensure_valid_token 0 envLiving initState).trace = [HttpReq.tokenRefresh] ∧
    (ensure_valid_token 0 envLiving stFresh).trace = [] ∧
    (ensure_valid_token 0 envLiving stFresh).val = true := by
  refine ⟨(ensure_valid_token_refresh_count 0 envLiving initState).1 (Or.inl rfl), ?_, ?_⟩
  · exact ((ensure_valid_token_refresh_count 0 envLiving stFresh).2 1000 rfl rfl
      (by decide)).1
  · exact ((ensure_valid_token_refresh_count 0 envLiving stFresh).2 1000 rfl rfl
      (by decide)).2

/-- C8: when the refresh response is a failure (non-200, missing token field,
or transport error), `get_access_token` returns `False` and leaves the state
unchanged, so a token that was due for refresh stays unusable at the current
and every later time; on success it sets the stored expiry to
`now + expires_in`. -/
theorem get_access_token_outcome (now : Int) (env : Env) (st : ApiState) :
    (env.tokenResp = none →
      (get_access_token now env st).val = false ∧
      (get_access_token now env st).st = st ∧
      (needsRefresh st now = true → ∀ fut : Int, now ≤ fut →
        needsRefresh (get_access_token now env st).st fut = true)) ∧
    (∀ (tok : String) (e : Int), env.tokenResp = some (tok, e) →
      (get_access_token now env st).val = true ∧
      (get_access_token now env st).st.accessToken = some tok ∧
      (get_access_token now env st).st.tokenExpiresAt = some (now + e)) := by
  constructor
  · intro h
    have hst : get_access_token now env st =
        { val := false, st := st, trace := [HttpReq.tokenRefresh] } := by
      unfold get_access_token; rw [h]
    refine ⟨by rw [hst], by rw [hst], ?_⟩
    intro hn fut hfut
    rw [hst]
    exact needsRefresh_mono st now fut hfut hn
  · intro tok e h
    have hst : get_access_token now env st =
        { val := true
          st := { st with accessToken := some tok, tokenExpiresAt := some (now + e) }
          trace := [HttpReq.tokenRefresh] } := by
      unfold get_access_token; rw [h]
    exact ⟨by rw [hst], by rw [hst], by rw [hst]⟩

/-- Witness for C8: against the failing environment the refresh fails, leaves
the fresh-process state unchanged and still refresh-due at time 5; against
the succeeding environment the expiry becomes 0 + 3600. -/
theorem get_access_token_outcome_witness :
    (get_access_token 0 envFail initState).val = false ∧
    (get_access_token 0 envFail initState).st = initState ∧
    needsRefresh (get_access_token 0 envFail initState).st 5 = true ∧
    (get_access_token 0 envLiving initState).st.tokenExpiresAt = some 3600 := by
  obtain ⟨h1, h2, h3⟩ := (get_access_token_outcome 0 envFail initState).1 rfl
  refine ⟨h1, h2, h3 rfl 5 (by decide), ?_⟩
  exact ((get_access_token_outcome 0 envLiving initState).2 "tok" 3600 rfl).2.2

theorem selectDefault_marker (l : List Room) (r : Room) (t : List Room)
    (old : Option String) (hm : markerMatch r.name = true)
    (hl : ∀ x ∈ l, markerMatch x.name = false) :
    selectDefault (l ++ r :: t) old = some r.uuid := by
  have hf : (l ++ r :: t).find? (fun x => markerMatch x.name) = some r :=
    find?_first _ r hm l t hl
  cases l with
  | nil =>
      simp only [List.nil_append] at hf ⊢
      simp only [selectDefault, hf]
  | cons a l' =>
      simp only [List.cons_append] at hf ⊢
      simp only [selectDefault, hf]

theorem selectDefault_no_marker (r0 : Room) (t : List Room) (old : Option String)
    (h : ∀ x ∈ r0 :: t, markerMatch x.name = false) :
    selectDefault (r0 :: t) old = some r0.uuid := by
  have hf : (r0 :: t).find? (fun x => markerMatch x.name) = none :=
    find?_eq_none_of_all _ (r0 :: t) h
  simp only [selectDefault, hf]

theorem selectDefault_nil (old : Option String) : selectDefault [] old = old := rfl

/-- C2: after a successful room fetch that stored the sequence `rs`, the
default room id is the uuid of the first marker-matching room, wherever that
room sits in the sequence; when no name matches, it is the uuid of the first
room; and for an empty sequence a previously unset default stays unset. -/
theorem fetch_rooms_default_selection (now : Int) (env : Env) (st : ApiState)
    (payload : RoomsPayload) (rs : List Room)
    (htok : (ensure_valid_token now env st).val = true)
    (hresp : env.roomsResp = some payload) (hex : extractRooms payload = some rs) :
    (fetch_rooms now env st).val = true ∧
    (fetch_rooms now env st).st.rooms = rs ∧
    (∀ (l : List Room) (r : Room) (t : List Room), rs = l ++ r :: t →
      markerMatch r.name = true → (∀ x ∈ l, markerMatch x.name = false) →
      (fetch_rooms now env st).st.defaultRoomId = some r.uuid) ∧
    ((∀ x ∈ rs, markerMatch x.name = false) → ∀ (r0 : Room) (t : List Room),
      rs = r0 :: t → (fetch_rooms now env st).st.defaultRoomId = some r0.uuid) ∧
    (rs = [] → st.defaultRoomId = none →
      (fetch_rooms now env st).st.defaultRoomId = none) := by
  have hfe := fetch_rooms_success_eq now env st htok payload rs hresp hex
  refine ⟨by rw [hfe], by rw [hfe], ?_, ?_, ?_⟩
  · intro l r t hsplit hm hl
    rw [hfe]
    show selectDefault rs (ensure_valid_token now env st).st.defaultRoomId = some r.uuid
    rw [hsplit]
    exact selectDefault_marker l r t _ hm hl
  · intro hall r0 t hsplit
    rw [hfe]
    show selectDefault rs (ensure_valid_token now env st).st.defaultRoomId = some r0.uuid
    rw [hsplit]
    exact selectDefault_no_marker r0 t _ (hsplit ▸ hall)
  · intro hnil hd
    rw [hfe]
    show selectDefault rs (ensure_valid_token now env st).st.defaultRoomId = none
    rw [hnil, selectDefault_nil, (ensure_valid_token_preserves now env st).2, hd]

/-- Witness for C2: the marker room in second position becomes the default;
with only non-matching rooms the first room becomes the default; with an
empty listing the default stays unset. -/
theorem fetch_rooms_default_selection_witness :
    (fetch_rooms 0 envEmoSecond initState).st.defaultRoomId = some "A" ∧
    (fetch_rooms 0 envLiving initState).st.defaultRoomId = some "u1" ∧
    (fetch_rooms 0 envNoRooms initState).st.defaultRoomId = none := by
  refine ⟨?_, ?_, ?_⟩
  · exact (fetch_rooms_default_selection 0 envEmoSecond initState
      (RoomsPayload.plain [officeRoom, emoRoom]) [officeRoom, emoRoom]
      rfl rfl rfl).2.2.1 [officeRoom] emoRoom [] rfl (by decide)
      (by intro x hx; simp only [List.mem_singleton] at hx; subst hx; decide)
  · exact (fetch_rooms_default_selection 0 envLiving initState
      (RoomsPayload.plain [livingRoom]) [livingRoom] rfl rfl rfl).2.2.2.1
      (by intro x hx; simp only [List.mem_singleton] at hx; subst hx; decide)
      livingRoom [] rfl
  · exact (fetch_rooms_default_selection 0 envNoRooms initState
      (RoomsPayload.plain []) [] rfl rfl rfl).2.2.2.2 rfl rfl

/-- C3: room-name resolution returns the uuid of the first room in scan order
whose lowered display name contains the lowered query as a substring, and
returns not-found exactly when no room name contains the query; the query
`"kitchen"` resolves against a room named `"Kitchen Assistant"`. -/
theorem resolveRoom_spec (rooms : List Room) (q : String) :
    (∀ u, resolveRoom rooms q = some u →
      ∃ (l : List Room) (r : Room) (t : List Room), rooms = l ++ r :: t ∧
        u = r.uuid ∧ strContains (strLower r.name) (strLower q) = true ∧
        ∀ x ∈ l, strContains (strLower x.name) (strLower q) = false) ∧
    (resolveRoom rooms q = none ↔
      ∀ x ∈ rooms, strContains (strLower x.name) (strLower q) = false) ∧
    resolveRoom [{ name := "Kitchen Assistant", uuid := "k1" }] "kitchen"
      = some "k1" := by
  refine ⟨?_, ⟨?_, ?_⟩, rfl⟩
  · intro u hu
    unfold resolveRoom at hu
    cases hf : rooms.find? (fun r => strContains (strLower r.name) (strLower q)) with
    | none => rw [hf] at hu; cases hu
    | some r =>
        rw [hf] at hu
        obtain ⟨l1, l2, hsplit, hp, hl⟩ := find?_eq_some_split _ hf
        refine ⟨l1, r, l2, hsplit, ?_, hp, hl⟩
        simpa using hu.symm
  · intro h
    unfold resolveRoom at h
    cases hf : rooms.find? (fun r => strContains (strLower r.name) (strLower q)) with
    | none =>
        intro x hx
        exact all_of_find?_eq_none _ rooms hf x hx
    | some r => rw [hf] at h; cases h
  · intro h
    unfold resolveRoom
    rw [find?_eq_none_of_all _ rooms h]
    rfl

/-- Witness for C3: applying the first-match characterization to the concrete
resolution of `"kitchen"` against `[Kitchen Assistant]`. -/
theorem resolveRoom_spec_witness :
    ∃ (l : List Room) (r : Room) (t : List Room),
      ([{ name := "Kitchen Assistant", uuid := "k1" }] : List Room) = l ++ r :: t ∧
      "k1" = r.uuid ∧
      strContains (strLower r.name) (strLower "kitchen") = true ∧
      ∀ x ∈ l, strContains (strLower x.name) (strLower "kitchen") = false :=
  (resolveRoom_spec [{ name := "Kitchen Assistant", uuid := "k1" }] "kitchen").1
    "k1" rfl

theorem ensure_valid_token_of_not_needed (now : Int) (env : Env) (st : ApiState)
    (hnr : needsRefresh st now = false) :
    ensure_valid_token now env st = { val := true, st := st, trace := [] } := by
  unfold ensure_valid_token
  rw [hnr]
  rfl

/-- Counterexample to C5 as stated: starting from the fresh-process state
(no token, no default room), `send_message` with no explicit room id does
fail, but only after an HTTP call has been made — its trace contains the
token-refresh request, so the claim "fails before any HTTP call is made" is
false at this input. -/
theorem send_message_no_room_counterexample :
    (send_message 0 envLiving initState "hi" none).val
      = Except.error "送信先の部屋が指定されていません" ∧
    (send_message 0 envLiving initState "hi" none).trace
      = [HttpReq.tokenRefresh] :=
  ⟨rfl, rfl⟩

/-- C5 (amended): `send_message` with no explicit room id and no truthy
default room fails (raises) before any message-post HTTP call: its trace
contains at most the token-refresh request, and when the stored token needs
no refresh the trace is empty. -/
theorem send_message_no_room_raises (now : Int) (env : Env) (st : ApiState)
    (text : String) (hd : strTruthy st.defaultRoomId = false) :
    (∃ e, (send_message now env st text none).val = Except.error e) ∧
    (∀ r ∈ (send_message now env st text none).trace, r = HttpReq.tokenRefresh) ∧
    (needsRefresh st now = false → (send_message now env st text none).trace = []) := by
  have hd' : strTruthy (ensure_valid_token now env st).st.defaultRoomId = false := by
    rw [(ensure_valid_token_preserves now env st).2]; exact hd
  have htr := ensure_valid_token_trace now env st
  have hmem : ∀ r ∈ (ensure_valid_token now env st).trace, r = HttpReq.tokenRefresh := by
    intro r hr
    rcases htr with h | h <;> rw [h] at hr
    · cases hr
    · simpa using hr
  unfold send_message
  by_cases hv : (ensure_valid_token now env st).val = true
  · simp only [hv, Bool.not_true, Bool.false_eq_true, if_false]
    have hpy : pyOrStr none (ensure_valid_token now env st).st.defaultRoomId
        = (ensure_valid_token now env st).st.defaultRoomId := rfl
    rw [hpy]
    rcases hdef : (ensure_valid_token now env st).st.defaultRoomId with _ | s
    · refine ⟨⟨_, rfl⟩, hmem, ?_⟩
      intro hnr
      rw [ensure_valid_token_of_not_needed now env st hnr]
    · rw [hdef] at hd'
      have hse : s.isEmpty = true := by
        simpa [strTruthy] using hd'
      simp only [hse, if_true]
      refine ⟨⟨_, rfl⟩, hmem, ?_⟩
      intro hnr
      rw [ensure_valid_token_of_not_needed now env st hnr]
  · have hv' : (ensure_valid_token now env st).val = false := Bool.eq_false_iff.mpr hv
    simp only [hv', Bool.not_false, if_true]
    refine ⟨⟨_, rfl⟩, hmem, ?_⟩
    intro hnr
    rw [ensure_valid_token_of_not_needed now env st hnr] at hv'
    cases hv'

/-- Witness for C5 (amended): with a valid token and no default room the
failing call issues no HTTP request at all. -/
theorem send_message_no_room_raises_witness :
    (∃ e, (send_message 0 envLiving stFresh "hi" none).val = Except.error e) ∧
    (send_message 0 envLiving stFresh "hi" none).trace = [] := by
  obtain ⟨h1, _, h3⟩ := send_message_no_room_raises 0 envLiving stFresh "hi" rfl
  exact ⟨h1, h3 rfl⟩

/-- Counterexample to C6 as stated: the dict returned by `get_rooms_info` has
no `room_id` key at all (and its status is the constant 200, not a remote
status), so not every operation returns a `\x7bstatus, data, room_id\x7d`
record. -/
theorem get_rooms_info_shape_counterexample :
    (get_rooms_info 0 envLiving stLiving).val.roomId = none ∧
    (get_rooms_info 0 envFail stLiving).val.status = 200 :=
  ⟨rfl, rfl⟩

/-- C6 (amended): `send_message` and `send_motion` return
`\x7bstatus, data, room_id\x7d` carrying the remote status verbatim — they
never raise on a non-2xx status; only the authorization failure aborts them.
`get_rooms_info` returns `\x7bstatus := 200, data\x7d` with no `room_id`
key. -/
theorem operation_result_shape (now : Int) (env : Env) (st : ApiState)
    (text : String) (doc : MotionDoc) (rid : Option String) (target : String)
    (hv : (ensure_valid_token now env st).val = true)
    (hts : pyOrStr rid st.defaultRoomId = some target)
    (hne : target.isEmpty = false) :
    (send_message now env st text rid).val = Except.ok
      { status := env.postStatus, data := RespData.body env.postBody,
        roomId := some target } ∧
    (send_motion now env st doc rid).val = Except.ok
      { status := env.postStatus, data := RespData.body env.postBody,
        roomId := some target } ∧
    (∀ (e : Env) (s : ApiState), (get_rooms_info now e s).val.roomId = none ∧
      (get_rooms_info now e s).val.status = 200) ∧
    (∀ (env2 : Env) (st2 : ApiState), (ensure_valid_token now env2 st2).val = false →
      (send_message now env2 st2 text rid).val
        = Except.error "アクセストークンの取得に失敗しました") := by
  have hpres := (ensure_valid_token_preserves now env st).2
  refine ⟨?_, ?_, fun e s => ⟨rfl, rfl⟩, ?_⟩
  · simp only [send_message, hv, Bool.not_true, Bool.false_eq_true, if_false,
      hpres, hts, hne]
  · simp only [send_motion, hv, Bool.not_true, Bool.false_eq_true, if_false,
      hpres, hts, hne]
  · intro env2 st2 hv2
    simp only [send_message, hv2, Bool.not_false, if_true]

/-- Witness for C6 (amended): concrete sends against a 500-status remote
return the 500 result record instead of raising; `get_rooms_info` has no
`room_id`; the failing environment aborts with the authorization error. -/
theorem operation_result_shape_witness :
    (send_message 0 { envLiving with postStatus := 500 } stLiving "hi" none).val
      = Except.ok { status := 500, data := RespData.body "ok", roomId := some "u1" } ∧
    (send_motion 0 { envLiving with postStatus := 500 } stLiving headShakeDoc none).val
      = Except.ok { status := 500, data := RespData.body "ok", roomId := some "u1" } ∧
    (get_rooms_info 0 envLiving stLiving).val.roomId = none ∧
    (send_message 0 envFail initState "hi" none).val
      = Except.error "アクセストークンの取得に失敗しました" := by
  obtain ⟨h1, h2, h3, h4⟩ := operation_result_shape 0
    { envLiving with postStatus := 500 } stLiving "hi" headShakeDoc none "u1"
    rfl rfl rfl
  exact ⟨h1, h2, (h3 envLiving stLiving).1, h4 envFail initState rfl⟩

/-- C9: `get_rooms_info` always reports status 200; when the cached room list
is empty and the fetch it triggers fails, the returned value is exactly the
empty snapshot (empty room list, unset default, count 0) — equal to the value
returned after a successful fetch of zero rooms, so the two cases are
indistinguishable in the result. -/
theorem get_rooms_info_always_200 (now : Int) (env env2 : Env) (st : ApiState)
    (h0 : st.rooms = []) (hd : st.defaultRoomId = none)
    (hfail : (fetch_rooms now env st).val = false)
    (htok2 : (ensure_valid_token now env2 st).val = true)
    (hresp2 : env2.roomsResp = some (RoomsPayload.plain [])) :
    (∀ (e : Env) (s : ApiState), (get_rooms_info now e s).val.status = 200) ∧
    (get_rooms_info now env st).val
      = { status := 200, data := RespData.roomsInfo [] none 0, roomId := none } ∧
    (get_rooms_info now env2 st).val = (get_rooms_info now env st).val := by
  have hie : st.rooms.isEmpty = true := by rw [h0]; rfl
  have hA : (get_rooms_info now env st).val
      = { status := 200, data := RespData.roomsInfo [] none 0, roomId := none } := by
    obtain ⟨hr, hdd⟩ := fetch_rooms_fail_preserves now env st hfail
    simp only [get_rooms_info, hie, if_true]
    rw [hr, hdd, h0, hd]
    rfl
  have hB : (get_rooms_info now env2 st).val
      = { status := 200, data := RespData.roomsInfo [] none 0, roomId := none } := by
    simp only [get_rooms_info, hie, if_true]
    rw [fetch_rooms_success_eq now env2 st htok2 _ [] hresp2 rfl]
    show ({ status := 200
            data := RespData.roomsInfo [] (selectDefault []
              (ensure_valid_token now env2 st).st.defaultRoomId) (List.length [])
            roomId := none } : OpResult) = _
    rw [selectDefault_nil, (ensure_valid_token_preserves now env2 st).2, hd]
    rfl
  exact ⟨fun e s => rfl, hA, hB.trans hA.symm⟩

/-- Witness for C9: a failed fetch (failing environment) and a successful
empty fetch give the same 200 snapshot from the fresh-process state. -/
theorem get_rooms_info_always_200_witness :
    (get_rooms_info 0 envFail initState).val
      = { status := 200, data := RespData.roomsInfo [] none 0, roomId := none } ∧
    (get_rooms_info 0 envNoRooms initState).val
      = (get_rooms_info 0 envFail initState).val := by
  obtain ⟨_, h2, h3⟩ := get_rooms_info_always_200 0 envFail envNoRooms initState
    rfl rfl rfl rfl rfl
  exact ⟨h2, h3⟩

theorem fetch_rooms_trace_mem (now : Int) (env : Env) (st : ApiState) :
    ∀ r ∈ (fetch_rooms now env st).trace,
      r = HttpReq.tokenRefresh ∨ r = HttpReq.getRooms := by
  have hev : ∀ r ∈ (ensure_valid_token now env st).trace, r = HttpReq.tokenRefresh := by
    intro r hr
    rcases ensure_valid_token_trace now env st with h | h <;> rw [h] at hr
    · cases hr
    · simpa using hr
  have happ : ∀ r ∈ (ensure_valid_token now env st).trace ++ [HttpReq.getRooms],
      r = HttpReq.tokenRefresh ∨ r = HttpReq.getRooms := by
    intro r hr
    rcases List.mem_append.mp hr with hr | hr
    · exact Or.inl (hev r hr)
    · exact Or.inr (by simpa using hr)
  unfold fetch_rooms
  by_cases hv : (ensure_valid_token now env st).val = true
  · simp only [hv, Bool.not_true, Bool.false_eq_true, if_false]
    rcases hresp : env.roomsResp with _ | payload
    · exact happ
    · rcases hex : extractRooms payload with _ | rs
      · simp only [hex]
        exact happ
      · simp only [hex]
        exact happ
  · have hv' : (ensure_valid_token now env st).val = false := Bool.eq_false_iff.mpr hv
    simp only [hv', Bool.not_false, if_true]
    intro r hr
    exact Or.inl (hev r hr)

theorem initSession_trace_mem (now : Int) (env : Env) :
    ∀ r ∈ (initSession now env).trace,
      r = HttpReq.tokenRefresh ∨ r = HttpReq.getRooms := by
  unfold initSession
  by_cases hg : (get_access_token now env initState).val = true
  · simp only [hg, Bool.not_true, Bool.false_eq_true, if_false]
    intro r hr
    rcases List.mem_append.mp hr with hr | hr
    · rw [get_access_token_trace] at hr
      exact Or.inl (by simpa using hr)
    · exact fetch_rooms_trace_mem now env _ r hr
  · have hg' : (get_access_token now env initState).val = false := Bool.eq_false_iff.mpr hg
    simp only [hg', Bool.not_false, if_true]
    intro r hr
    rw [get_access_token_trace] at hr
    exact Or.inl (by simpa using hr)

theorem callTool_trace_eq (now : Int) (env : Env) (nm : String) (args : ToolArgs) :
    (callTool now env nm args).2 = (callToolInner now env nm args).trace := by
  unfold callTool
  rcases h : (callToolInner now env nm args).val with e | t <;> simp [h]

theorem callTool_text_of_ok (now : Int) (env : Env) (nm : String) (args : ToolArgs)
    (t : String) (h : (callToolInner now env nm args).val = Except.ok t) :
    (callTool now env nm args).1 = t := by
  unfold callTool
  simp only [h]

theorem callToolInner_motion_unknown (now : Int) (env : Env) (m : String)
    (args : ToolArgs) (hname : args.motionName = some m)
    (hm : PREDEFINED_MOTIONS.lookup m = none) :
    (callToolInner now env "bocco_send_motion" args).trace
      = (initSession now env).trace ∧
    (∀ api, (initSession now env).val = Except.ok api →
      (callToolInner now env "bocco_send_motion" args).val
        = Except.ok (unknownMotionText m)) := by
  unfold callToolInner
  rcases hs : (initSession now env).val with e | api
  · simp only [hs]
    exact ⟨trivial, fun api h => by cases h⟩
  · simp only [hs, if_true, hname, hm]
    refine ⟨by trivial, fun api2 h => ?_⟩
    injection h with h
    subst h
    rfl

/-- Counterexample to C4 as stated: invoking the send-motion tool with the
unknown motion name `"dance"` does return the catalog listing, but its HTTP
trace is not empty — opening the session already issued the token-refresh and
room-fetch requests, so "no HTTP request is sent" is false at this input. -/
theorem send_motion_unknown_counterexample :
    (callTool 0 envLiving "bocco_send_motion" { motionName := some "dance" }).1
      = unknownMotionText "dance" ∧
    (callTool 0 envLiving "bocco_send_motion" { motionName := some "dance" }).2
      = [HttpReq.tokenRefresh, HttpReq.getRooms] ∧
    (callTool 0 envLiving "bocco_send_motion" { motionName := some "dance" }).2
      ≠ [] := by
  refine ⟨rfl, rfl, by decide⟩

/-- C4 (amended): a send-motion invocation with a motion name outside the
catalog's keys sends no motion-post or message-post HTTP request — its trace
holds only the session-initialization token-refresh and room-fetch requests —
and whenever session initialization succeeds the returned error text names
the motion and lists exactly the catalog's key names. -/
theorem send_motion_unknown_no_dispatch (now : Int) (env : Env) (m : String)
    (args : ToolArgs) (hname : args.motionName = some m)
    (hm : PREDEFINED_MOTIONS.lookup m = none) :
    (∀ r ∈ (callTool now env "bocco_send_motion" args).2,
      r = HttpReq.tokenRefresh ∨ r = HttpReq.getRooms) ∧
    (∀ api, (initSession now env).val = Except.ok api →
      (callTool now env "bocco_send_motion" args).1
        = "エラー: モーション " ++ pySq ++ m ++ pySq ++
          " が見つかりません。利用可能なモーション: " ++
          pyStrListRepr (PREDEFINED_MOTIONS.map Prod.fst)) := by
  obtain ⟨htr, hval⟩ := callToolInner_motion_unknown now env m args hname hm
  constructor
  · intro r hr
    rw [callTool_trace_eq, htr] at hr
    exact initSession_trace_mem now env r hr
  · intro api hok
    exact callTool_text_of_ok now env "bocco_send_motion" args _ (hval api hok)

/-- Witness for C4 (amended): the concrete unknown motion `"spin"` against the
healthy environment — only the two initialization requests occur and the
listing text is returned. -/
theorem send_motion_unknown_no_dispatch_witness :
    (∀ r ∈ (callTool 0 envLiving "bocco_send_motion"
        { motionName := some "spin" }).2,
      r = HttpReq.tokenRefresh ∨ r = HttpReq.getRooms) ∧
    (callTool 0 envLiving "bocco_send_motion" { motionName := some "spin" }).1
      = "エラー: モーション " ++ pySq ++ "spin" ++ pySq ++
        " が見つかりません。利用可能なモーション: " ++
        pyStrListRepr (PREDEFINED_MOTIONS.map Prod.fst) := by
  obtain ⟨h1, h2⟩ := send_motion_unknown_no_dispatch 0 envLiving "spin"
    { motionName := some "spin" } rfl rfl
  exact ⟨h1, h2 stLiving rfl⟩

theorem callToolInner_room_not_found (now : Int) (env : Env) (q : String)
    (api : ApiState) (hs : (initSession now env).val = Except.ok api)
    (hq : q.isEmpty = false) (hres : resolveRoom api.rooms q = none) :
    (∀ msg, (callToolInner now env "bocco_send_message"
        { message := some msg, roomName := some q }).val
      = Except.ok (msgRoomNotFoundText q api.rooms)) ∧
    (∀ (m : String) (doc : MotionDoc), PREDEFINED_MOTIONS.lookup m = some doc →
      (callToolInner now env "bocco_send_motion"
          { motionName := some m, roomName := some q }).val
        = Except.ok (shortRoomNotFoundText q)) ∧
    (∀ cdoc : MotionDoc, (callToolInner now env "bocco_custom_motion"
        { motionJson := some cdoc, roomName := some q }).val
      = Except.ok (shortRoomNotFoundText q)) := by
  have htq : strTruthy (some q) = true := by simp [strTruthy, hq]
  refine ⟨?_, ?_, ?_⟩
  · intro msg
    unfold callToolInner
    simp only [hs, if_true, htq, Option.getD_some, hres]
  · intro m doc hm
    unfold callToolInner
    simp only [hs, if_true, hm, htq, Option.getD_some, hres]
    rw [if_neg (by decide)]
  · intro cdoc
    unfold callToolInner
    simp only [hs, if_true, htq, Option.getD_some, hres]
    rw [if_neg (by decide), if_neg (by decide)]

/-- Counterexample to C7 as stated: the custom-motion action with an
unresolvable room name returns an error that does not list the available room
names — `"Living"` is the only available room, yet it does not occur in the
returned text. -/
theorem motion_room_not_found_counterexample :
    (callTool 0 envLiving "bocco_custom_motion"
        { motionJson := some headShakeDoc, roomName := some "xyz" }).1
      = "エラー: 部屋「xyz」が見つかりません" ∧
    envLiving.roomsResp = some (RoomsPayload.plain [livingRoom]) ∧
    strContains "エラー: 部屋「xyz」が見つかりません" livingRoom.name = false := by
  exact ⟨rfl, rfl, by decide⟩

/-- C7 (amended): when the given room name resolves to no room, each of the
three room-taking actions returns a normal error text through the ordinary
return path (no exception reaches the dispatcher boundary, so the process
does not abort); the send-message action's text lists the available room
names, while the canned-motion and custom-motion actions name only the
queried room, without the listing. -/
theorem room_not_found_error_texts (now : Int) (env : Env) (q : String)
    (api : ApiState) (hs : (initSession now env).val = Except.ok api)
    (hq : q.isEmpty = false) (hres : resolveRoom api.rooms q = none) :
    (∀ msg, (callTool now env "bocco_send_message"
        { message := some msg, roomName := some q }).1
      = msgRoomNotFoundText q api.rooms) ∧
    (∀ (m : String) (doc : MotionDoc), PREDEFINED_MOTIONS.lookup m = some doc →
      (callTool now env "bocco_send_motion"
          { motionName := some m, roomName := some q }).1
        = shortRoomNotFoundText q) ∧
    (∀ cdoc : MotionDoc, (callTool now env "bocco_custom_motion"
        { motionJson := some cdoc, roomName := some q }).1
      = shortRoomNotFoundText q) := by
  obtain ⟨h1, h2, h3⟩ := callToolInner_room_not_found now env q api hs hq hres
  refine ⟨?_, ?_, ?_⟩
  · intro msg
    exact callTool_text_of_ok now env _ _ _ (h1 msg)
  · intro m doc hm
    exact callTool_text_of_ok now env _ _ _ (h2 m doc hm)
  · intro cdoc
    exact callTool_text_of_ok now env _ _ _ (h3 cdoc)

/-- Witness for C7 (amended): the room query `"xyz"` against the single room
`Living` — the send-message action returns the listing text, the two motion
actions return the short text. -/
theorem room_not_found_error_texts_witness :
    (callTool 0 envLiving "bocco_send_message"
        { message := some "hi", roomName := some "xyz" }).1
      = msgRoomNotFoundText "xyz" [livingRoom] ∧
    (callTool 0 envLiving "bocco_send_motion"
        { motionName := some "simple_nod", roomName := some "xyz" }).1
      = shortRoomNotFoundText "xyz" ∧
    (callTool 0 envLiving "bocco_custom_motion"
        { motionJson := some headShakeDoc, roomName := some "xyz" }).1
      = shortRoomNotFoundText "xyz" := by
  obtain ⟨h1, h2, h3⟩ := room_not_found_error_texts 0 envLiving "xyz" stLiving
    rfl rfl rfl
  exact ⟨h1 "hi", h2 "simple_nod" simpleNodDoc rfl, h3 headShakeDoc⟩

/-- C10: passing an empty `room_name` to the dispatcher behaves exactly like
omitting it — the dispatcher output (value, state and trace) is identical for
every tool name and argument set, so no resolution is attempted and no
room-not-found error can result — and a send with no explicit room id targets
the default room. -/
theorem empty_room_name_like_omitted :
    (∀ (now : Int) (env : Env) (nm : String) (msg mn : Option String)
        (mj : Option MotionDoc),
      callToolInner now env nm
          { message := msg, roomName := some "", motionName := mn, motionJson := mj }
        = callToolInner now env nm
          { message := msg, roomName := none, motionName := mn, motionJson := mj }) ∧
    (∀ (now : Int) (env : Env) (st : ApiState) (text d : String),
      needsRefresh st now = false → st.defaultRoomId = some d →
      d.isEmpty = false →
      (send_message now env st text none).trace
        = [HttpReq.postMessage d text (toString (now * 1000))] ∧
      (send_message now env st text none).val = Except.ok
        { status := env.postStatus, data := RespData.body env.postBody,
          roomId := some d }) := by
  have h1 : strTruthy (some "") = false := rfl
  have h2 : strTruthy (none : Option String) = false := rfl
  constructor
  · intro now env nm msg mn mj
    unfold callToolInner
    rcases hs : (initSession now env).val with e | api
    · simp only [hs]
    · simp only [hs, h1, h2, Bool.false_eq_true, if_false]
  · intro now env st text d hnr hd hde
    unfold send_message
    rw [ensure_valid_token_of_not_needed now env st hnr]
    simp only [Bool.not_true, Bool.false_eq_true, if_false]
    have hpy : pyOrStr none st.defaultRoomId = some d := by
      simp [pyOrStr, strTruthy, hd]
    simp only [hpy, hde, Bool.false_eq_true, if_false]
    exact ⟨by simp, trivial⟩

/-- Witness for C10: with the healthy environment, the send-message tool with
`room_name = ""` produces the same output as with `room_name` omitted, and a
send with no explicit room posts to the default room `u1`. -/
theorem empty_room_name_like_omitted_witness :
    callToolInner 0 envLiving "bocco_send_message"
        { message := some "hi", roomName := some "", motionName := none,
          motionJson := none }
      = callToolInner 0 envLiving "bocco_send_message"
        { message := some "hi", roomName := none, motionName := none,
          motionJson := none } ∧
    (send_message 0 envLiving stLiving "hi" none).trace
      = [HttpReq.postMessage "u1" "hi" (toString ((0 : Int) * 1000))] := by
  obtain ⟨h1, h2⟩ := empty_room_name_like_omitted
  exact ⟨h1 0 envLiving "bocco_send_message" (some "hi") none none,
    (h2 0 envLiving stLiving "hi" "u1" rfl rfl rfl).1⟩
